import Mathlib

/-!
Verification of the kdash dual-loop core (src/main.rs, src/ui/overview.rs)
against its natural-language specification.

The embedding models:
* the Worker loop of start_tokio (main.rs lines 127-139) over the std mpsc
  channel, as a trace-producing step machine;
* the startup validation and wiring of main (main.rs lines 74-125);
* the UI loop of start_ui (main.rs lines 141-207) with terminal effects
  made explicit as a trace;
* the panic hook (main.rs lines 45-71);
* get_nm_ratio (ui/overview.rs lines 361-369), with rationals standing in
  for f64 and a checked division that refuses a zero divisor.

Types that live in modules not present in the source tree (IoEvent from
network.rs, Key from event.rs, NodeMetrics from app.rs) are modelled from
the spec with just the constructors/fields the present code uses.
-/

namespace KDash

/-- Modelled from the spec: the Command variants of network.rs (not in the
source tree); the spec lists fetch operations for namespaces, pods, nodes,
services and node metrics. Only the identity of a command matters to the
claims, never its payload. -/
inductive IoEvent where
  | GetNamespaces
  | GetPods
  | GetNodes
  | GetServices
  | GetNodeMetrics
  deriving DecidableEq

/-- Observable events of the Worker: it begins handling a command, or it
completes one (handle_network_event returns, its write-back done). -/
inductive WorkerEvent where
  | begin (c : IoEvent)
  | complete (c : IoEvent)
  deriving DecidableEq

/-- The Worker loop of start_tokio (main.rs lines 133-135):
while let Ok(io_event) = io_rx.recv() followed by an awaited
handle_network_event.  The std mpsc channel is FIFO, so the channel contents
are the enqueue-ordered list; each recv pops the front and the handler runs
to completion before the next recv, whatever its duration. -/
def workerLoop : List IoEvent → List WorkerEvent
  | [] => []
  | c :: rest => WorkerEvent.begin c :: WorkerEvent.complete c :: workerLoop rest

/-- The commands the Worker began handling, in trace order. -/
def beginsOf (t : List WorkerEvent) : List IoEvent :=
  t.filterMap fun e =>
    match e with
    | WorkerEvent.begin c => some c
    | WorkerEvent.complete _ => none

/-- How many commands are in flight at the end of a trace: begun minus
completed. -/
def inFlight : List WorkerEvent → Int
  | [] => 0
  | WorkerEvent.begin _ :: t => 1 + inFlight t
  | WorkerEvent.complete _ :: t => inFlight t - 1

lemma inFlight_take_workerLoop (q : List IoEvent) :
    ∀ n : Nat, inFlight ((workerLoop q).take n) ≤ 1 := by
  induction q with
  | nil => intro n; simp [workerLoop, inFlight]
  | cons c rest ih =>
    intro n
    match n with
    | 0 => simp [inFlight]
    | 1 => simp [workerLoop, inFlight]
    | Nat.succ (Nat.succ m) =>
      have h := ih m
      simp only [workerLoop, List.take_succ_cons, inFlight]
      omega

lemma beginsOf_workerLoop (q : List IoEvent) : beginsOf (workerLoop q) = q := by
  induction q with
  | nil => rfl
  | cons c rest ih => simp [workerLoop, beginsOf] at ih ⊢; exact ih

/-- C1: the Worker begins handling commands in exactly the enqueue order
(the begins of the trace are the queue itself), and handles at most one
command at a time (every prefix of the trace has at most one command in
flight), regardless of how long each command takes to complete. -/
theorem c1_fifo_order (queue : List IoEvent) :
    beginsOf (workerLoop queue) = queue ∧
    ∀ n : Nat, inFlight ((workerLoop queue).take n) ≤ 1 :=
  ⟨beginsOf_workerLoop queue, inFlight_take_workerLoop queue⟩

/-- State of the Worker loop once the Command Queue is closed: the commands
still buffered in the channel, and whether recv has returned Err (the loop
has terminated). -/
structure WorkerState where
  pending : List IoEvent
  terminated : Bool
  deriving DecidableEq

/-- One turn of the Worker loop (main.rs lines 133-135) after the queue is
closed: recv pops the next buffered command and the handler performs its
write-back (returned as the singleton write list); on an empty closed
channel recv returns Err and the loop terminates.  A terminated Worker does
nothing. -/
def workerStep (s : WorkerState) : WorkerState × List IoEvent :=
  if s.terminated then (s, [])
  else
    match s.pending with
    | [] => ({ pending := [], terminated := true }, [])
    | c :: rest => ({ pending := rest, terminated := false }, [c])

/-- Iterate the Worker for a number of turns, collecting the write-backs it
performs on SharedAppState. -/
def workerRun : WorkerState → Nat → WorkerState × List IoEvent
  | s, 0 => (s, [])
  | s, Nat.succ n =>
    let p := workerStep s
    let q := workerRun p.1 n
    (q.1, p.2 ++ q.2)

lemma workerStep_terminated (s : WorkerState) (h : s.terminated = true) :
    workerStep s = (s, []) := by
  simp [workerStep, h]

lemma workerRun_terminated (n : Nat) :
    ∀ s : WorkerState, s.terminated = true → workerRun s n = (s, []) := by
  induction n with
  | zero => intro s _; rfl
  | succ n ih =>
    intro s h
    simp [workerRun, workerStep_terminated s h, ih s h]

lemma workerRun_drain (pending : List IoEvent) :
    workerRun ⟨pending, false⟩ (pending.length + 1) =
      (⟨[], true⟩, pending) := by
  induction pending with
  | nil =>
    simp [workerRun, workerStep, workerRun_terminated]
  | cons c rest ih =>
    simp [workerRun, workerStep] at ih ⊢
    simp [List.length_cons, workerRun, workerStep, ih]

/-- C2: once the Command Queue is closed with some commands still buffered,
the Worker loop terminates (after draining them), its write-backs are
exactly those buffered commands, and from the terminated state every
further run performs no writes and changes nothing. -/
theorem c2_terminates_no_writes_after_close (pending : List IoEvent) (n : Nat) :
    (workerRun ⟨pending, false⟩ (pending.length + 1)).1.terminated = true ∧
    (workerRun ⟨pending, false⟩ (pending.length + 1)).2 = pending ∧
    workerRun (workerRun ⟨pending, false⟩ (pending.length + 1)).1 n =
      ((workerRun ⟨pending, false⟩ (pending.length + 1)).1, []) := by
  have hd := workerRun_drain pending
  refine ⟨by rw [hd], by rw [hd], ?_⟩
  rw [hd]
  exact workerRun_terminated n ⟨[], true⟩ rfl

/-- The two configuration durations of Cli (cli.rs is not in the source
tree; main.rs reads and writes exactly these two fields, both u64
milliseconds). Defaults are left abstract. -/
structure Cli where
  tick_rate : Nat
  poll_rate : Nat
  deriving DecidableEq

/-- Rust u64 remainder: panics (a fatal runtime error) when the divisor is
zero, as at main.rs line 98. -/
def checkedRem (a b : Nat) : Except String Nat :=
  if b = 0 then Except.error "attempt to calculate the remainder with a divisor of zero"
  else Except.ok (a % b)

/-- Rust u64 division: panics (a fatal runtime error) when the divisor is
zero, as at main.rs line 111. -/
def checkedDiv (a b : Nat) : Except String Nat :=
  if b = 0 then Except.error "attempt to divide by zero"
  else Except.ok (a / b)

/-- Tick-rate validation of main (main.rs lines 83-92): a supplied value of
1000 or more is a fatal error, otherwise the supplied value replaces the
default. -/
def validate_tick (defaults : Cli) (tickArg : Option Nat) : Except String Cli :=
  match tickArg with
  | none => Except.ok defaults
  | some t =>
    if t ≥ 1000 then Except.error "Tick rate must be below 1000"
    else Except.ok { defaults with tick_rate := t }

/-- Poll-rate validation of main (main.rs lines 94-103): a supplied value
whose remainder modulo the (possibly updated) tick rate is positive is a
fatal error, otherwise it replaces the default. -/
def validate_poll (cli : Cli) (pollArg : Option Nat) : Except String Cli :=
  match pollArg with
  | none => Except.ok cli
  | some p =>
    match checkedRem p cli.tick_rate with
    | Except.error e => Except.error e
    | Except.ok r =>
      if r > 0 then Except.error "Poll rate must be multiple of tick-rate"
      else Except.ok { cli with poll_rate := p }

/-- Observable startup actions of main after validation succeeds
(main.rs lines 117-122). -/
inductive StartupEffect where
  | spawnWorkerThread
  | startUiLoop
  deriving DecidableEq

/-- Result of a successful startup: the validated configuration and the
tick/poll ratio passed to App::new (main.rs line 111). -/
structure Startup where
  cli : Cli
  ratio : Nat
  deriving DecidableEq

/-- The startup sequence of main (main.rs lines 74-122): validate the tick
rate, validate the poll rate, compute the tick/poll ratio for App::new,
then spawn the worker thread and start the UI.  The returned effect list is
what was performed before the outcome; every fatal error happens before any
thread is spawned. -/
def main_startup (defaults : Cli) (tickArg pollArg : Option Nat) :
    List StartupEffect × Except String Startup :=
  match validate_tick defaults tickArg with
  | Except.error e => ([], Except.error e)
  | Except.ok cli1 =>
    match validate_poll cli1 pollArg with
    | Except.error e => ([], Except.error e)
    | Except.ok cli2 =>
      match checkedDiv cli2.poll_rate cli2.tick_rate with
      | Except.error e => ([], Except.error e)
      | Except.ok ratio =>
        ([StartupEffect.spawnWorkerThread, StartupEffect.startUiLoop],
         Except.ok { cli := cli2, ratio := ratio })

/-- C3 as stated is false at two supplied pairs: with T = 0, P = 0 the
poll rate is an exact integer multiple of the tick rate (0 = 0·0), yet
startup fails (remainder with a divisor of zero); with T = 1000, P = 2000
the poll rate is again an exact multiple, yet startup fails on the
tick-rate bound.  In neither case is the configuration accepted. -/
theorem c3_counterexample :
    (∃ k : Nat, 0 = k * 0) ∧
    main_startup ⟨250, 5000⟩ (some 0) (some 0) =
      ([], Except.error "attempt to calculate the remainder with a divisor of zero") ∧
    (2000 = 2 * 1000) ∧
    main_startup ⟨250, 5000⟩ (some 1000) (some 2000) =
      ([], Except.error "Tick rate must be below 1000") :=
  ⟨⟨0, rfl⟩, rfl, rfl, rfl⟩

/-- C3 amended: for every supplied poll-rate P and supplied tick-rate T
with 0 < T < 1000, if P is not an exact multiple of T startup fails with
the fatal poll-rate configuration error (before any thread is spawned),
and if P is an exact multiple the configuration is accepted with tick/poll
ratio P / T. -/
theorem c3_poll_rate_validation (defaults : Cli) (P T : Nat)
    (h0 : 0 < T) (h1 : T < 1000) :
    (P % T ≠ 0 →
      main_startup defaults (some T) (some P) =
        ([], Except.error "Poll rate must be multiple of tick-rate")) ∧
    (P % T = 0 →
      main_startup defaults (some T) (some P) =
        ([StartupEffect.spawnWorkerThread, StartupEffect.startUiLoop],
         Except.ok { cli := { tick_rate := T, poll_rate := P }, ratio := P / T })) := by
  have hT : ¬ T = 0 := Nat.pos_iff_ne_zero.mp h0
  have hlt : ¬ T ≥ 1000 := by omega
  constructor
  · intro hrem
    simp [main_startup, validate_tick, validate_poll, checkedRem, hT, hlt,
      Nat.pos_iff_ne_zero.mpr hrem]
  · intro hrem
    simp [main_startup, validate_tick, validate_poll, checkedRem, checkedDiv, hT, hlt, hrem]

/-- Witness for C3 amended at the spec examples: P = 250 with T = 200 is
rejected (250 mod 200 = 50), and P = 1000 with T = 250 is accepted with
ratio 4. -/
theorem c3_poll_rate_validation_witness :
    main_startup ⟨250, 5000⟩ (some 200) (some 250) =
      ([], Except.error "Poll rate must be multiple of tick-rate") ∧
    main_startup ⟨250, 5000⟩ (some 250) (some 1000) =
      ([StartupEffect.spawnWorkerThread, StartupEffect.startUiLoop],
       Except.ok { cli := { tick_rate := 250, poll_rate := 1000 }, ratio := 4 }) :=
  ⟨(c3_poll_rate_validation ⟨250, 5000⟩ 250 200 (by decide) (by decide)).1 (by decide),
   (c3_poll_rate_validation ⟨250, 5000⟩ 1000 250 (by decide) (by decide)).2 (by decide)⟩

/-- C9 as stated is false for the supplied tick-rate 0: it is strictly
below 1000, yet startup is not accepted — it fails with a divide-by-zero
fault when the poll/tick ratio is computed (main.rs line 111), before the
worker thread is spawned. -/
theorem c9_counterexample :
    (0 : Nat) < 1000 ∧
    main_startup ⟨250, 5000⟩ (some 0) none =
      ([], Except.error "attempt to divide by zero") :=
  ⟨by decide, rfl⟩

/-- C9 amended: a supplied tick-rate of 1000 or more causes the fatal
tick-rate configuration error before the worker thread is spawned (the
effect list preceding the error is empty); a supplied tick-rate strictly
below 1000 and nonzero is accepted (with no poll-rate argument, startup
proceeds to spawn the worker thread, with ratio poll_rate / T); the value 0
also passes the tick-rate bound check itself but startup then fails with
a divide-by-zero fault when the ratio is computed, still before the worker
thread is spawned. -/
theorem c9_tick_rate_validation (defaults : Cli) (T : Nat) :
    (T ≥ 1000 →
      main_startup defaults (some T) none =
        ([], Except.error "Tick rate must be below 1000")) ∧
    (0 < T → T < 1000 →
      main_startup defaults (some T) none =
        ([StartupEffect.spawnWorkerThread, StartupEffect.startUiLoop],
         Except.ok { cli := { defaults with tick_rate := T },
                     ratio := defaults.poll_rate / T })) ∧
    (T = 0 →
      main_startup defaults (some T) none =
        ([], Except.error "attempt to divide by zero")) := by
  refine ⟨?_, ?_, ?_⟩
  · intro h
    simp [main_startup, validate_tick, h]
  · intro h0 h1
    have hT : ¬ T = 0 := Nat.pos_iff_ne_zero.mp h0
    have hlt : ¬ T ≥ 1000 := by omega
    simp [main_startup, validate_tick, validate_poll, checkedDiv, hT, hlt]
  · intro h
    subst h
    simp [main_startup, validate_tick, validate_poll, checkedDiv]

/-- Witness for C9 amended at tick-rate 1500 (rejected before any spawn)
and tick-rate 250 (accepted, worker spawned, ratio 20). -/
theorem c9_tick_rate_validation_witness :
    main_startup ⟨250, 5000⟩ (some 1500) none =
      ([], Except.error "Tick rate must be below 1000") ∧
    main_startup ⟨250, 5000⟩ (some 250) none =
      ([StartupEffect.spawnWorkerThread, StartupEffect.startUiLoop],
       Except.ok { cli := { tick_rate := 250, poll_rate := 5000 }, ratio := 20 }) :=
  ⟨(c9_tick_rate_validation ⟨250, 5000⟩ 1500).1 (by decide),
   (c9_tick_rate_validation ⟨250, 5000⟩ 250).2.1 (by decide) (by decide)⟩

/-- Modelled from the spec: the key type of event.rs (not in the source
tree).  start_ui only compares against Key::Ctrl of a character; other keys
are routed to the handlers. -/
inductive Key where
  | Ctrl (c : Char)
  | CharKey (c : Char)
  | Esc
  deriving DecidableEq

/-- An event delivered to the loop: a key press or a timer tick
(event.rs, per the spec: exactly one per iteration). -/
inductive Event where
  | Input (k : Key)
  | Tick
  deriving DecidableEq

/-- tui::layout::Rect, the terminal size returned by
terminal.backend().size() and cached in App. -/
structure Rect where
  x : Nat
  y : Nat
  width : Nat
  height : Nat
  deriving DecidableEq

/-- The fields of App (app.rs, not in the source tree) that start_ui itself
reads and writes: the refresh flag, the cached terminal size, the derived
help-menu bounds, and the quit flag. -/
structure UiApp where
  refresh : Bool
  size : Rect
  help_menu_max_lines : Nat
  help_menu_offset : Nat
  help_menu_page : Nat
  should_quit : Bool
  deriving DecidableEq

/-- The resize handling at the top of each UI-loop iteration (main.rs
lines 158-176): when the live size is available and a refresh is pending or
the cached size differs, reset the help-menu bounds, cache the new size,
and set the visible help-menu line count to height - 8 when the height
exceeds 8, else 0. -/
def resize_step (app : UiApp) (sizeRes : Option Rect) : UiApp :=
  match sizeRes with
  | none => app
  | some size =>
    if app.refresh = true ∨ app.size ≠ size then
      { app with
          help_menu_max_lines := if size.height > 8 then size.height - 8 else 0,
          help_menu_offset := 0,
          help_menu_page := 0,
          size := size }
    else app

/-- Terminal-side effects performed by start_ui and shutdown
(main.rs lines 141-151, 179, 203-206 and 34-43). -/
inductive TermEffect where
  | enterAltScreen
  | enableMouseCapture
  | enableRawMode
  | hideCursor
  | clearScreen
  | draw
  | showCursor
  | disableRawMode
  | leaveAltScreen
  | disableMouseCapture
  deriving DecidableEq

/-- Environment inputs of one UI-loop iteration: the live terminal size
(none when terminal.backend().size() errors, in which case the resize block
is skipped), whether terminal.draw succeeds, and what events.next()
returns. -/
structure IterInput where
  sizeRes : Option Rect
  drawOk : Bool
  eventRes : Except String Event

/-- How the UI loop ended: broke out normally (Ctrl+C or the quit flag),
or an operation returned Err which the question-mark operator propagated
out of start_ui; fuelOut is the model artifact of running out of scripted
iteration inputs. -/
inductive LoopOutcome where
  | broke (a : UiApp)
  | failed (e : String)
  | fuelOut (a : UiApp)
  deriving DecidableEq

/-- The UI loop of start_ui (main.rs lines 156-201), parameterised by the
external collaborators handlers::handle_app and App::on_tick (their modules
are not in the source tree).  Each iteration: resize handling, then
terminal.draw (its Err propagates), then events.next() (its Err
propagates); on Input of Ctrl+C break immediately, otherwise run the
handler; on Tick run on_tick; then break if the quit flag is set. -/
def ui_loop (handle : Key → UiApp → UiApp) (tick : Bool → UiApp → UiApp) :
    UiApp → Bool → List IterInput → List TermEffect × LoopOutcome
  | app, _, [] => ([], LoopOutcome.fuelOut app)
  | app, first, i :: rest =>
    let app1 := resize_step app i.sizeRes
    if i.drawOk then
      match i.eventRes with
      | Except.error e => ([TermEffect.draw], LoopOutcome.failed e)
      | Except.ok (Event.Input k) =>
        if k = Key.Ctrl 'c' then ([TermEffect.draw], LoopOutcome.broke app1)
        else
          let app2 := handle k app1
          if app2.should_quit then ([TermEffect.draw], LoopOutcome.broke app2)
          else
            let r := ui_loop handle tick app2 false rest
            (TermEffect.draw :: r.1, r.2)
      | Except.ok Event.Tick =>
        let app2 := tick first app1
        if app2.should_quit then ([TermEffect.draw], LoopOutcome.broke app2)
        else
          let r := ui_loop handle tick app2 false rest
          (TermEffect.draw :: r.1, r.2)
    else ([], LoopOutcome.failed "draw error")

/-- Terminal initialization of start_ui (main.rs lines 143-151). -/
def initEffects : List TermEffect :=
  [TermEffect.enterAltScreen, TermEffect.enableMouseCapture,
   TermEffect.enableRawMode, TermEffect.hideCursor, TermEffect.clearScreen]

/-- Effects after a normal loop exit (main.rs lines 203-204 and the
shutdown function, lines 34-43): show_cursor, then disable raw mode, leave
the alternate screen, disable mouse capture, show the cursor again. -/
def restoreEffects : List TermEffect :=
  [TermEffect.showCursor, TermEffect.disableRawMode, TermEffect.leaveAltScreen,
   TermEffect.disableMouseCapture, TermEffect.showCursor]

/-- start_ui (main.rs lines 141-207): initialize the terminal, run the
loop; on a normal break run show_cursor and shutdown; an Err from inside
the loop propagates immediately via the question-mark operator, skipping
lines 203-204. -/
def start_ui (handle : Key → UiApp → UiApp) (tick : Bool → UiApp → UiApp)
    (app : UiApp) (inputs : List IterInput) : List TermEffect × LoopOutcome :=
  match ui_loop handle tick app true inputs with
  | (t, LoopOutcome.broke a) => (initEffects ++ t ++ restoreEffects, LoopOutcome.broke a)
  | (t, LoopOutcome.failed e) => (initEffects ++ t, LoopOutcome.failed e)
  | (t, LoopOutcome.fuelOut a) => (initEffects ++ t, LoopOutcome.fuelOut a)

lemma resize_step_should_quit (app : UiApp) (s : Option Rect) :
    (resize_step app s).should_quit = app.should_quit := by
  match s with
  | none => rfl
  | some size =>
    simp only [resize_step]
    split <;> rfl

/-- A sample App value used to instantiate the loop concretely. -/
def sampleApp : UiApp :=
  { refresh := false, size := ⟨0, 0, 0, 0⟩, help_menu_max_lines := 0,
    help_menu_offset := 0, help_menu_page := 0, should_quit := false }

/-- C4 as stated is false: on Input of Ctrl+C the loop exits at once, but
it does not set the quit flag — starting from an app whose quit flag is
false, the loop breaks with the flag still false. -/
theorem c4_counterexample :
    ui_loop (fun _ a => a) (fun _ a => a) sampleApp true
        [⟨none, true, Except.ok (Event.Input (Key.Ctrl 'c'))⟩] =
      ([TermEffect.draw], LoopOutcome.broke sampleApp) ∧
    sampleApp.should_quit = false := by
  constructor
  · rfl
  · rfl

/-- C4 amended: when the delivered event is Input of Ctrl+C (and the draw
succeeded), the loop exits immediately — breaking with the app exactly as
the resize step left it, bypassing the key handlers — and the quit flag is
left unchanged, not set. -/
theorem c4_ctrl_c_breaks (handle : Key → UiApp → UiApp)
    (tick : Bool → UiApp → UiApp) (app : UiApp) (first : Bool)
    (i : IterInput) (rest : List IterInput)
    (hdraw : i.drawOk = true)
    (hev : i.eventRes = Except.ok (Event.Input (Key.Ctrl 'c'))) :
    ui_loop handle tick app first (i :: rest) =
      ([TermEffect.draw], LoopOutcome.broke (resize_step app i.sizeRes)) ∧
    (resize_step app i.sizeRes).should_quit = app.should_quit := by
  refine ⟨?_, resize_step_should_quit app i.sizeRes⟩
  simp [ui_loop, hdraw, hev]

/-- Witness for C4 amended at a concrete iteration input. -/
theorem c4_ctrl_c_breaks_witness :
    ui_loop (fun _ a => a) (fun _ a => a) sampleApp true
        [⟨none, true, Except.ok (Event.Input (Key.Ctrl 'c'))⟩] =
      ([TermEffect.draw], LoopOutcome.broke (resize_step sampleApp none)) ∧
    (resize_step sampleApp none).should_quit = sampleApp.should_quit :=
  c4_ctrl_c_breaks (fun _ a => a) (fun _ a => a) sampleApp true
    ⟨none, true, Except.ok (Event.Input (Key.Ctrl 'c'))⟩ [] rfl rfl

lemma ui_loop_trace_only_draw (handle : Key → UiApp → UiApp)
    (tick : Bool → UiApp → UiApp) :
    ∀ (inputs : List IterInput) (app : UiApp) (first : Bool),
      ∀ x ∈ (ui_loop handle tick app first inputs).1, x = TermEffect.draw := by
  intro inputs
  induction inputs with
  | nil => intro app first x hx; simp [ui_loop] at hx
  | cons i rest ih =>
    intro app first x hx
    obtain ⟨sz, dok, evr⟩ := i
    cases dok with
    | false => simp [ui_loop] at hx
    | true =>
      cases evr with
      | error e2 =>
        simp [ui_loop] at hx
        simp [hx]
      | ok ev =>
        cases ev with
        | Tick =>
          simp [ui_loop] at hx
          split at hx
          · simp at hx; simp [hx]
          · simp at hx
            rcases hx with hx | hx
            · simp [hx]
            · exact ih _ false x hx
        | Input k =>
          by_cases hk : k = Key.Ctrl 'c'
          · subst hk
            simp [ui_loop] at hx
            simp [hx]
          · simp [ui_loop, hk] at hx
            split at hx
            · simp at hx; simp [hx]
            · simp at hx
              rcases hx with hx | hx
              · simp [hx]
              · exact ih _ false x hx

/-- C5 as stated is false: when terminal.draw fails in the loop, start_ui
propagates the error, and the trace it performed contains none of the
restoration effects — raw mode is not disabled, the alternate screen is
not left, the cursor is not shown. -/
theorem c5_counterexample :
    start_ui (fun _ a => a) (fun _ a => a) sampleApp
        [⟨none, false, Except.ok Event.Tick⟩] =
      (initEffects, LoopOutcome.failed "draw error") ∧
    TermEffect.disableRawMode ∉ initEffects ∧
    TermEffect.leaveAltScreen ∉ initEffects ∧
    TermEffect.showCursor ∉ initEffects := by
  refine ⟨rfl, ?_, ?_, ?_⟩ <;> decide

/-- C5 amended: an error from a rendering/terminal I/O operation inside
the UI loop is fatal and propagates to the top level (start_ui ends with
that failure), but the shutdown/restoration sequence is NOT executed on
this path: the performed trace contains no disable-raw-mode, no
leave-alternate-screen and no show-cursor effect (restoration runs only on
a normal loop exit). -/
theorem c5_loop_error_skips_restore (handle : Key → UiApp → UiApp)
    (tick : Bool → UiApp → UiApp) (app : UiApp) (inputs : List IterInput)
    (t : List TermEffect) (e : String)
    (h : start_ui handle tick app inputs = (t, LoopOutcome.failed e)) :
    TermEffect.disableRawMode ∉ t ∧
    TermEffect.leaveAltScreen ∉ t ∧
    TermEffect.showCursor ∉ t := by
  have honly := ui_loop_trace_only_draw handle tick inputs app true
  rcases hu : ui_loop handle tick app true inputs with ⟨tr, o⟩
  rw [hu] at honly
  unfold start_ui at h
  rw [hu] at h
  cases o with
  | broke a => simp at h
  | fuelOut a => simp at h
  | failed e2 =>
    simp only [Prod.mk.injEq] at h
    obtain ⟨ht, _⟩ := h
    subst ht
    refine ⟨?_, ?_, ?_⟩ <;>
    · intro hmem
      rcases List.mem_append.mp hmem with hm | hm
      · revert hm; decide
      · exact absurd (honly _ hm) (by decide)

/-- Witness for C5 amended: a concrete run whose draw fails ends in the
propagated failure, and the trace performed contains no restoration
effect. -/
theorem c5_loop_error_skips_restore_witness :
    TermEffect.disableRawMode ∉
        (start_ui (fun _ a => a) (fun _ a => a) sampleApp
          [⟨none, false, Except.ok Event.Tick⟩]).1 ∧
    TermEffect.leaveAltScreen ∉
        (start_ui (fun _ a => a) (fun _ a => a) sampleApp
          [⟨none, false, Except.ok Event.Tick⟩]).1 ∧
    TermEffect.showCursor ∉
        (start_ui (fun _ a => a) (fun _ a => a) sampleApp
          [⟨none, false, Except.ok Event.Tick⟩]).1 :=
  c5_loop_error_skips_restore (fun _ a => a) (fun _ a => a) sampleApp
    [⟨none, false, Except.ok Event.Tick⟩] initEffects "draw error" rfl

/-- C8: on a UI-loop iteration where the live size is available and a
refresh is pending or the cached size differs, the recomputed help-menu
visible-line count equals max(0, height - 8) and both pagination offsets
(help_menu_offset and help_menu_page) are reset to 0.  resize_step is the
resize block run at the top of every loop iteration (main.rs lines
158-176). -/
theorem c8_resize_recomputes_help_menu (app : UiApp) (s : Rect)
    (h : app.refresh = true ∨ app.size ≠ s) :
    ((resize_step app (some s)).help_menu_max_lines : Int) =
      max 0 ((s.height : Int) - 8) ∧
    (resize_step app (some s)).help_menu_offset = 0 ∧
    (resize_step app (some s)).help_menu_page = 0 := by
  simp only [resize_step, if_pos h]
  refine ⟨?_, trivial, trivial⟩
  by_cases hh : s.height > 8
  · have h0 : (0 : Int) ≤ (s.height : Int) - 8 := by omega
    simp only [if_pos hh]
    rw [max_eq_right h0]
    omega
  · have h0 : (s.height : Int) - 8 ≤ 0 := by omega
    simp only [if_neg hh]
    rw [max_eq_left h0]
    simp

/-- Witness for C8 at a concrete resize: cached size 0x0, live size 80x30,
so the visible help-menu line count becomes 22 and both offsets 0. -/
theorem c8_resize_recomputes_help_menu_witness :
    ((resize_step sampleApp (some ⟨0, 0, 80, 30⟩)).help_menu_max_lines : Int) =
      max 0 (((30 : Nat) : Int) - 8) ∧
    (resize_step sampleApp (some ⟨0, 0, 80, 30⟩)).help_menu_offset = 0 ∧
    (resize_step sampleApp (some ⟨0, 0, 80, 30⟩)).help_menu_page = 0 :=
  c8_resize_recomputes_help_menu sampleApp ⟨0, 0, 80, 30⟩ (Or.inr (by decide))

/-- The message and location carried by a panic (main.rs lines 47-55: the
location is unwrapped and the payload downcast to a string). -/
structure PanicData where
  message : String
  location : String

/-- Observable actions of the panic hook (main.rs lines 45-71). -/
inductive HookEffect where
  | disableRawMode
  | leaveAltScreen
  | printOut (s : String)
  | disableMouseCapture
  deriving DecidableEq

/-- The diagnostic line printed by the hook (main.rs lines 63-66). -/
def panic_diagnostic (info : PanicData) (stacktrace : String) : String :=
  "thread \x27<unnamed>\x27 panicked at \x27" ++ info.message ++ "\x27, " ++
    info.location ++ "\n\r" ++ stacktrace

/-- The panic hook installed process-wide by main (main.rs lines 45-71 and
75-77).  Its entire body sits under cfg!(debug_assertions): in a build with
debug assertions it formats the backtrace, disables raw mode, and then in
one terminal batch leaves the alternate screen, prints the diagnostic and
disables mouse capture; in a build without debug assertions it does
nothing. -/
def panic_hook (debugAssertions : Bool) (info : PanicData) (backtrace : String) :
    List HookEffect :=
  if debugAssertions then
    [HookEffect.disableRawMode, HookEffect.leaveAltScreen,
     HookEffect.printOut (panic_diagnostic info (backtrace.replace "\n" "\n\r")),
     HookEffect.disableMouseCapture]
  else []

/-- C6 as stated is false: in a build without debug assertions (the release
profile) the hook performs no effect at all on a panic — it neither
restores the terminal nor emits any diagnostic. -/
theorem c6_counterexample :
    panic_hook false ⟨"boom", "src/main.rs:88:7"⟩ "backtrace" = [] := rfl

/-- C6 amended: in a build with debug assertions, the hook first restores
the terminal (disables raw mode and leaves the alternate screen, with no
print before or between) and only then prints the diagnostic containing
the panic message, its location and the stack trace; in a build without
debug assertions the hook does nothing. -/
theorem c6_panic_hook_order (info : PanicData) (backtrace : String) :
    (∃ pre post,
      panic_hook true info backtrace =
        pre ++ HookEffect.printOut
          (panic_diagnostic info (backtrace.replace "\n" "\n\r")) :: post ∧
      HookEffect.disableRawMode ∈ pre ∧
      HookEffect.leaveAltScreen ∈ pre ∧
      ∀ s2, HookEffect.printOut s2 ∉ pre) ∧
    panic_hook false info backtrace = [] := by
  refine ⟨⟨[HookEffect.disableRawMode, HookEffect.leaveAltScreen],
          [HookEffect.disableMouseCapture], rfl, ?_, ?_, ?_⟩, rfl⟩
  · simp
  · simp
  · intro s2
    simp

/-- start_tokio (main.rs lines 127-139): obtain the cluster client; on
success run the Worker loop over the queued commands; on failure panic
with the clear message, with no command ever dequeued (the returned trace
is empty).  The panic is represented as a fatal error outcome, following
the spec (the Worker never starts and the fault is fatal; the panic
strategy configuration itself lives outside the source tree). -/
def start_tokio (clientRes : Except String Unit) (pending : List IoEvent) :
    List WorkerEvent × Except String Unit :=
  match clientRes with
  | Except.ok _ => (workerLoop pending, Except.ok ())
  | Except.error e =>
    ([], Except.error ("Unable to obtain Kubernetes client " ++ e))

/-- C7: when client construction fails, start_tokio ends fatally with the
clear message, its trace is empty — so the Worker begins handling no
command at all, whatever was queued. -/
theorem c7_client_failure_no_commands (e : String) (pending : List IoEvent) :
    start_tokio (Except.error e) pending =
      ([], Except.error ("Unable to obtain Kubernetes client " ++ e)) ∧
    beginsOf (start_tokio (Except.error e) pending).1 = [] :=
  ⟨rfl, rfl⟩

/-- The node-metrics record of app.rs (not in the source tree); overview.rs
reads the accumulated percentage fields cpu_percent_i and mem_percent_i in
the folds it passes to get_nm_ratio.  Rationals stand in for f64. -/
structure NodeMetrics where
  name : String
  cpu_percent_i : Rat
  mem_percent_i : Rat

/-- Division that refuses a zero divisor, making "the division is never
performed on zero" observable: a division actually reaching a zero divisor
would surface as none. -/
def fdiv (a b : Rat) : Option Rat :=
  if b = 0 then none else some (a / b)

/-- get_nm_ratio (ui/overview.rs lines 361-369): on a non-empty slice, fold
the percentages and divide the sum by the length and then by 100; on an
empty slice return 0 without dividing. -/
def get_nm_ratio (node_metrics : List NodeMetrics)
    (f : Rat → NodeMetrics → Rat) : Option Rat :=
  if !node_metrics.isEmpty then
    match fdiv (node_metrics.foldl f 0) (node_metrics.length : Rat) with
    | none => none
    | some q => fdiv q 100
  else
    some 0

/-- C10: get_nm_ratio is total — every division it performs has a nonzero
divisor, so it always returns a value: exactly 0 on the empty list, and
the folded sum divided by the length and then by 100 on a non-empty
list. -/
theorem c10_get_nm_ratio_total (l : List NodeMetrics)
    (f : Rat → NodeMetrics → Rat) :
    get_nm_ratio l f =
      some (if l.isEmpty then 0 else l.foldl f 0 / (l.length : Rat) / 100) := by
  cases l with
  | nil => rfl
  | cons a t =>
    have hlen : ((t.length : Rat) + 1) ≠ 0 := by positivity
    have h100 : (100 : Rat) ≠ 0 := by norm_num
    simp [get_nm_ratio, fdiv, hlen, h100]

end KDash
